import Mathlib

/-!
Verification of the build/packaging pipeline of the supernote-sudoku-plugin
repository.  The pipeline exists twice in the repository: as a bash script
(src/buildPlugin.sh) and as a PowerShell script (the unnamed source
part_004).  Both are shallowly embedded below: pure text processing is
modelled over `List Char`, the file system and external tools are modelled
as explicit inputs (the pre-existing manifests, the scan results, the exit
status of gradle, the state of the staging directory at compression time),
and each pipeline step is a Lean function translated from the corresponding
shell function.
-/

/-! ## Generic string helpers (byte/codepoint-level, executable)

The shell scripts compare and sort strings bytewise (`sort -u`, python
`sorted`).  Core `String` functions such as `String.toLower` or
`String.endsWith` do not reduce inside the kernel, so all string processing
below is implemented by structural recursion over `String.data`.
-/

/-- Bytewise (codepoint-wise) lexicographic `≤` on character lists; this is
the order used by `sort -u` (LC_ALL=C) and by the python `sorted` on the
ASCII class names handled by the scripts. -/
def lexLe : List Char → List Char → Bool
  | [], _ => true
  | _ :: _, [] => false
  | a :: as, b :: bs => if a == b then lexLe as bs else Nat.blt a.toNat b.toNat

/-- The sorting relation on strings induced by `lexLe`. -/
def strRel (a b : String) : Prop := lexLe a.data b.data = true

instance : DecidableRel strRel :=
  fun a b => inferInstanceAs (Decidable (lexLe a.data b.data = true))

theorem charToNat_inj {a b : Char} (h : a.toNat = b.toNat) : a = b :=
  Char.ext_iff.mpr (UInt32.ext h)

theorem lexLe_total : ∀ l m : List Char, lexLe l m = true ∨ lexLe m l = true := by
  intro l
  induction l with
  | nil => intro m; left; rfl
  | cons a as ih =>
    intro m
    cases m with
    | nil => right; rfl
    | cons b bs =>
      by_cases hab : a = b
      · subst hab
        rcases ih bs with h | h
        · left; simpa [lexLe] using h
        · right; simpa [lexLe] using h
      · have hne : a.toNat ≠ b.toNat := fun hc => hab (charToNat_inj hc)
        rcases Nat.lt_or_ge a.toNat b.toNat with h | h
        · left; simp [lexLe, hab, Nat.blt_eq, h]
        · right
          have hba : b ≠ a := fun hc => hab hc.symm
          have hlt : b.toNat < a.toNat := Nat.lt_of_le_of_ne h (fun hc => hne hc.symm)
          simp [lexLe, hba, Nat.blt_eq, hlt]

theorem lexLe_trans :
    ∀ l m n : List Char, lexLe l m = true → lexLe m n = true → lexLe l n = true := by
  intro l
  induction l with
  | nil => intro m n _ _; rfl
  | cons a as ih =>
    intro m n h1 h2
    cases m with
    | nil => simp [lexLe] at h1
    | cons b bs =>
      cases n with
      | nil => simp [lexLe] at h2
      | cons c cs =>
        by_cases hab : a = b
        · subst hab
          by_cases hbc : a = c
          · subst hbc
            simp only [lexLe, beq_self_eq_true, if_true] at h1 h2 ⊢
            exact ih bs cs h1 h2
          · simp only [lexLe, beq_self_eq_true, if_true] at h1
            simpa [lexLe, hbc] using h2
        · by_cases hbc : b = c
          · subst hbc
            simpa [lexLe, hab] using h1
          · have hab' : (a == b) = false := beq_eq_false_iff_ne.mpr hab
            have hbc' : (b == c) = false := beq_eq_false_iff_ne.mpr hbc
            simp only [lexLe, hab', hbc', Bool.false_eq_true, if_false, Nat.blt_eq] at h1 h2
            have hac : a.toNat < c.toNat := Nat.lt_trans h1 h2
            have hne : a ≠ c := fun he => by
              subst he; exact Nat.lt_irrefl _ hac
            have hac' : (a == c) = false := beq_eq_false_iff_ne.mpr hne
            simp [lexLe, hac', Nat.blt_eq, hac]

instance : IsTotal String strRel := ⟨fun a b => lexLe_total a.data b.data⟩

instance : IsTrans String strRel := ⟨fun a b c => lexLe_trans a.data b.data c.data⟩

/-- Embedding of `sort -u` (and of the python `sorted` applied to a set):
sort, then remove duplicates. -/
def sortUniq (l : List String) : List String := (l.insertionSort strRel).dedup

theorem mem_sortUniq {x : String} {l : List String} : x ∈ sortUniq l ↔ x ∈ l := by
  simp [sortUniq, List.mem_dedup, List.mem_insertionSort]

theorem sortUniq_sorted (l : List String) : (sortUniq l).Pairwise strRel :=
  List.Pairwise.sublist (List.dedup_sublist _) (List.sorted_insertionSort _ l)

theorem sortUniq_nodup (l : List String) : (sortUniq l).Nodup := List.nodup_dedup _

/-- A line counts as non-blank for `awk 'NF'` iff it has a character other
than space or tab. -/
def nonblankB (s : String) : Bool := s.data.any (fun c => !(c == ' ' || c == '\t'))

theorem ne_empty_of_nonblank {s : String} (h : nonblankB s = true) : s ≠ "" := by
  intro he
  subst he
  exact absurd h (by decide)

/-- ASCII lower-casing of one character, as done by
`tr '[:upper:]' '[:lower:]'` in bash and `String.ToLower` in PowerShell
(the module names involved are ASCII). -/
def asciiLower (c : Char) : Char :=
  if 65 ≤ c.toNat && c.toNat ≤ 90 then Char.ofNat (c.toNat + 32) else c

/-- ASCII lower-casing of a string. -/
def lowerStr (s : String) : String := String.mk (s.data.map asciiLower)

/-- Literal-match helper: if `lit` is a leading run of `l`, return the rest. -/
def dropLit : List Char → List Char → Option (List Char)
  | [], rest => some rest
  | _ :: _, [] => none
  | c :: cs, d :: ds => if c == d then dropLit cs ds else none

/-- `startsWithL l lit` tests whether `lit` is a leading run of `l`
(the `case $x in pat*)` / `-like 'pat*'` test of the scripts). -/
def startsWithL (l lit : List Char) : Bool := (dropLit lit l).isSome

/-- `endsWithL l suf` tests whether `suf` is a trailing run of `l`
(`str.endswith(...)` in python, `-match '...$'` in PowerShell). -/
def endsWithL (l suf : List Char) : Bool := startsWithL l.reverse suf.reverse

/-- Split a character list at every occurrence of the separator `sep`. -/
def splitOnChar (sep : Char) : List Char → List (List Char)
  | [] => [[]]
  | c :: rest =>
    let tail := splitOnChar sep rest
    if c == sep then [] :: tail
    else (c :: tail.headD []) :: tail.tailD []

/-! ## Data model

The manifest document (PluginConfig.json).  The base fields are written by
`new_plugin_config`; `reactPackages` and `nativeCodePackage` are absent
from a freshly generated manifest and only added later by the pipeline, so
they are modelled as `Option` (with `none` = field absent from the JSON
document). -/

/-- Project identity read from package.json (`get_package_info` /
`Get-PackageInfo`). -/
structure PackageInfo where
  name : String
  description : String
  version : String
  deriving Repr, DecidableEq

/-- The manifest document PluginConfig.json. -/
structure PluginConfig where
  name : String
  desc : String
  iconPath : String
  versionName : String
  versionCode : String
  pluginID : String
  pluginKey : String
  jsMainPath : String
  reactPackages : Option (List String) := none
  nativeCodePackage : Option String := none
  deriving Repr, DecidableEq

/-! ## Manifest operations (buildPlugin.sh lines 89-108, 375-423, 531-613;
part_004 `New-PluginConfig`, `Update-PluginConfigPackages`,
`Copy-ApkAndUpdateConfig`, `Copy-IconAndUpdatePath`) -/

/-- `new_plugin_config` (buildPlugin.sh lines 89-108): the root manifest
written on first run.  `reactPackages` and `nativeCodePackage` are not part
of the generated document. -/
def new_plugin_config (plugin_id : String) (info : PackageInfo) : PluginConfig :=
  { name := info.name
    desc := info.description
    iconPath := ""
    versionName := info.version
    versionCode := "1"
    pluginID := plugin_id
    pluginKey := info.name
    jsMainPath := "index" }

/-- The root-manifest bootstrap step of `main` (buildPlugin.sh lines
683-690; part_004 lines 1170-1183), which the spec calls `bootstrapRoot`: if the root
PluginConfig.json exists it is kept untouched and no generation happens;
otherwise it is created with a freshly generated plugin id. -/
def bootstrap_root_config (existing : Option PluginConfig) (freshId : String)
    (info : PackageInfo) : PluginConfig :=
  match existing with
  | some cfg => cfg
  | none => new_plugin_config freshId info

/-- The alphabet of `New-RandomString` (part_004 line 141); `new_random_string`
in bash uses the same class `a-z0-9`. -/
def randomChars : List Char := "abcdefghijklmnopqrstuvwxyz0123456789".data

/-- `New-RandomString` (part_004 lines 138-150): picks `length` characters
from the 36-character alphabet; the random draws of `Get-Random -Maximum 36`
are modelled as an input stream of indices below 36. -/
def New_RandomString (rand : Nat → Fin 36) (length : Nat) : String :=
  String.mk ((List.range length).map (fun i => randomChars.getD (rand i).val 'a'))

/-- The staging-seed step of `main` (buildPlugin.sh line 693 `cp root gen`;
part_004 line 1188 `Copy-Item -Force`), which the spec calls `seedStaging`.  The copy
is unconditional: whatever staging manifest existed before the run is
replaced by the root manifest. -/
def seed_staging (rootCfg : PluginConfig) (_priorStaging : Option PluginConfig) :
    PluginConfig :=
  rootCfg

/-- `update_plugin_config_packages` (buildPlugin.sh lines 375-423): if the
staging manifest is missing it is first copied from the root manifest (and
the step fails, returning `none`, when both are missing); then the
`reactPackages` field is overwritten with the given package lines (blank
lines removed by the `jq -R -s` / python splitlines filter), an empty input
producing the empty array `[]`. -/
def update_plugin_config_packages (rootCfg genCfg : Option PluginConfig)
    (packagesList : List String) : Option PluginConfig :=
  match genCfg, rootCfg with
  | some cfg, _ =>
      some { cfg with reactPackages := some (packagesList.filter (fun s => s != "")) }
  | none, some rcfg =>
      some { rcfg with reactPackages := some (packagesList.filter (fun s => s != "")) }
  | none, none => none

/-- The package-merge step of `main` (buildPlugin.sh lines 713-715): the
discovered package names are filtered through `awk 'NF'`, deduplicated and
sorted by `sort -u`, and written by `update_plugin_config_packages`.  This
is what the spec calls `mergePackages`. -/
def merge_packages (rootCfg genCfg : Option PluginConfig) (discovered : List String) :
    Option PluginConfig :=
  update_plugin_config_packages rootCfg genCfg (sortUniq (discovered.filter nonblankB))

/-- Last path component (`basename` in bash, `Split-Path -Leaf` in
PowerShell). -/
def baseName (p : String) : String :=
  String.mk ((splitOnChar '/' p.data).getLastD p.data)

/-- `copy_icon_and_update_path` (buildPlugin.sh lines 572-613): when the
root manifest carries a non-empty `iconPath` and the icon file exists, the
icon is copied into staging and the `iconPath` field of the staging manifest is set to
"/" followed by the file name of the icon; otherwise the step is skipped. -/
def copy_icon_and_update_path (rootCfg : PluginConfig) (iconFileFound : Bool)
    (cfg : PluginConfig) : PluginConfig :=
  if rootCfg.iconPath != "" && iconFileFound then
    { cfg with iconPath := "/" ++ baseName rootCfg.iconPath }
  else cfg

/-- `copy_apk_and_update_config` (buildPlugin.sh lines 531-564): when an
APK is found under the gradle output tree it is staged as app.npk and the
`nativeCodePackage` field of the staging manifest is set to "/app.npk"; when no APK is
found the function fails (`none`) leaving the manifest untouched. -/
def copy_apk_and_update_config (apkFound : Bool) (cfg : PluginConfig) :
    Option PluginConfig :=
  if apkFound then some { cfg with nativeCodePackage := some "/app.npk" } else none

/-- `new_zip_package` (buildPlugin.sh lines 634-649): fails when the staging
directory does not exist, when it is empty, or when the zip tool is missing
or fails; returns whether the archive was created. -/
def new_zip_package (dirExists dirNonEmpty zipCmdAvailable zipExitOk : Bool) : Bool :=
  if !dirExists then false
  else if !dirNonEmpty then false
  else if !zipCmdAvailable then false
  else zipExitOk

/-! ## Dependency classifier (buildPlugin.sh lines 116-126 and 199-242;
part_004 `Is-IgnoredModuleName`, `Scan-NodeModulesNativeCode`) -/

/-- `is_ignored_module_name` (buildPlugin.sh lines 116-126): the module name
is lower-cased, then compared against the fixed exact names and the two
scope-prefix wildcard patterns. -/
def is_ignored_module_name (moduleName : String) : Bool :=
  let lower := lowerStr moduleName
  lower == "react-native" || lower == "react" || lower == "sn-plugin-lib" ||
    startsWithL lower.data "@react-native".data ||
    startsWithL lower.data "@react-navigation".data

/-- Classification outcome for one node_modules entry. -/
inductive ModuleClass where
  | ignored
  | nativeBearing
  | plain
  deriving Repr, DecidableEq

/-- The per-module step of `scan_node_modules_native_code` (buildPlugin.sh
lines 205-237): a deny-listed name is skipped (`continue`) before any
directory is looked at; otherwise the module is native-bearing iff one of
the three candidate subdirectories (android, platforms/android,
platforms/android-native) contains a .java or .kt file.  The three booleans
are those three directory checks. -/
def classify_module (moduleName : String)
    (androidHasSrc platformsAndroidHasSrc platformsAndroidNativeHasSrc : Bool) :
    ModuleClass :=
  if is_ignored_module_name moduleName then ModuleClass.ignored
  else if androidHasSrc || platformsAndroidHasSrc || platformsAndroidNativeHasSrc then
    ModuleClass.nativeBearing
  else ModuleClass.plain

/-! ## Symbol resolver (buildPlugin.sh lines 291-299; part_004 lines
491-497 `$resolveFqcn`) -/

/-- python `"." in name` / PowerShell `$name -like '*.*'`. -/
def containsDot (s : String) : Bool := s.data.any (fun c => c == '.')

/-- The resolver shared by both scanners: an already dotted name is kept;
otherwise the import table is consulted; otherwise the declared package is
glued on; otherwise the bare name is returned. -/
def resolve_fqcn (imports : List (String × String)) (pkg : String) (name : String) :
    String :=
  if containsDot name then name
  else
    match imports.lookup name with
    | some fq => fq
    | none => if pkg != "" then pkg ++ "." ++ name else name

/-! ## Source-text scanning machinery

`find_manual_react_packages_from_application` (buildPlugin.sh lines
250-303, an embedded python script) and
`Find-ManualReactPackagesFromApplication` (part_004 lines 455-569) extract
registration call sites from Application sources with regular expressions.
Each regular expression of the scripts is implemented below as a
deterministic matcher over `List Char`; a driver re-creates the
`findall` / `Regex.Matches` semantics (left-to-right, non-overlapping,
word-boundary `\b` before a match, restart after the end of a match).  All
the patterns involved start with a word character and continue with
deterministic greedy runs, so maximal-munch scanning coincides with the
backtracking semantics of the regex engines.
-/

/-- Characters of the regex class `[A-Za-z0-9_]` (also the `\w` class used
by the word boundary `\b`). -/
def isWordChar (c : Char) : Bool := c.isAlphanum || c == '_'

/-- Characters of the regex class `[A-Za-z0-9_\.]`. -/
def isDotWordChar (c : Char) : Bool := isWordChar c || c == '.'

/-- Characters of the regex class `\s` (the sources are ASCII). -/
def isSpaceChar (c : Char) : Bool := c == ' ' || c == '\t' || c == '\r' || c == '\n'

/-- `\s*`. -/
def skipSpaces (l : List Char) : List Char := l.dropWhile isSpaceChar

/-- `\s+`: at least one whitespace character. -/
def skipSpaces1 : List Char → Option (List Char)
  | c :: rest => if isSpaceChar c then some (skipSpaces rest) else none
  | [] => none

/-- Maximal run of `[A-Za-z0-9_]+` together with the rest. -/
def takeWordRun (l : List Char) : List Char × List Char :=
  (l.takeWhile isWordChar, l.dropWhile isWordChar)

/-- Maximal run of `[A-Za-z0-9_\.]+` together with the rest. -/
def takeDotWordRun (l : List Char) : List Char × List Char :=
  (l.takeWhile isDotWordChar, l.dropWhile isDotWordChar)

/-- Expect one literal character. -/
def expectChar (c : Char) : List Char → Option (List Char)
  | d :: rest => if d == c then some rest else none
  | [] => none

/-- Scan `l` for the first `*/` and return what follows it (the non-greedy
`.*?\*/` of the block-comment regexes); `none` when the comment is
unterminated, in which case the regex does not match at all. -/
def dropBlockRest : List Char → Option (List Char)
  | [] => none
  | [_] => none
  | c :: d :: rest =>
    if c == '*' && d == '/' then some rest else dropBlockRest (d :: rest)

/-- Fuel-driven worker for `stripBlockComments`; the fuel (initialised to
the text length) only bounds the recursion and is never exhausted on the
inputs used. -/
def stripBlockAux : Nat → List Char → List Char
  | 0, l => l
  | _ + 1, [] => []
  | fuel + 1, c :: rest =>
    match c, rest with
    | '/', '*' :: rest2 =>
      match dropBlockRest rest2 with
      | some rest3 => stripBlockAux fuel rest3
      | none => c :: rest
    | _, _ => c :: stripBlockAux fuel rest

/-- `re.sub(r"/\*.*?\*/", "", text)` with DOTALL (bash python line 282) and
`-replace '(?s)/\*.*?\*/', ''` (part_004 line 476): remove every non-greedy
block comment. -/
def stripBlockComments (l : List Char) : List Char := stripBlockAux (l.length + 1) l

/-- Split a text into lines at every newline character. -/
def splitLinesAux : List Char → List Char → List (List Char)
  | acc, [] => [acc.reverse]
  | acc, c :: rest =>
    if c == '\n' then acc.reverse :: splitLinesAux [] rest
    else splitLinesAux (c :: acc) rest

/-- Split a text into lines. -/
def splitLines (l : List Char) : List (List Char) := splitLinesAux [] l

/-- Rejoin lines with newline characters. -/
def joinLines (ls : List (List Char)) : List Char := (ls.intersperse ['\n']).flatten

/-- Remove everything from the first `//` of a line to its end (the bash
python `re.sub(r"//.*?$", "", text)` with MULTILINE, line 283). -/
def cutLineComment : List Char → List Char
  | [] => []
  | [c] => [c]
  | c :: d :: rest =>
    if c == '/' && d == '/' then [] else c :: cutLineComment (d :: rest)

/-- The bash python line-comment stripping, applied per line. -/
def stripLineCommentsSh (l : List Char) : List Char :=
  joinLines ((splitLines l).map cutLineComment)

/-- Does a line consist of optional whitespace followed by `//`?  (the
PowerShell `-replace '(?m)^\s*//.*$', ''`, part_004 line 475, which blanks
only whole comment lines). -/
def lineIsCommentPs (line : List Char) : Bool :=
  match line.dropWhile isSpaceChar with
  | '/' :: '/' :: _ => true
  | _ => false

/-- The PowerShell line-comment stripping: comment lines become empty. -/
def stripLineCommentsPs (l : List Char) : List Char :=
  joinLines ((splitLines l).map (fun line => if lineIsCommentPs line then [] else line))

/-- `^\s*package\s+([A-Za-z0-9_\.]+)` applied to one line (bash python
line 273), first match wins. -/
def matchPackageLine (line : List Char) : Option String :=
  match dropLit "package".data (line.dropWhile isSpaceChar) with
  | none => none
  | some r =>
    match skipSpaces1 r with
    | none => none
    | some r2 =>
      let cap := (takeDotWordRun r2).1
      if cap.isEmpty then none else some (String.mk cap)

/-- `^\s*package\s+([^\s;]+)` applied to one line (part_004 line 478). -/
def matchPackageLinePs (line : List Char) : Option String :=
  match dropLit "package".data (line.dropWhile isSpaceChar) with
  | none => none
  | some r =>
    match skipSpaces1 r with
    | none => none
    | some r2 =>
      let cap := r2.takeWhile (fun c => !isSpaceChar c && c != ';')
      if cap.isEmpty then none else some (String.mk cap)

/-- `^\s*import\s+([A-Za-z0-9_\.]+)` applied to one line (bash python
line 274). -/
def matchImportLine (line : List Char) : Option String :=
  match dropLit "import".data (line.dropWhile isSpaceChar) with
  | none => none
  | some r =>
    match skipSpaces1 r with
    | none => none
    | some r2 =>
      let cap := (takeDotWordRun r2).1
      if cap.isEmpty then none else some (String.mk cap)

/-- `^\s*import\s+([^\s;]+)` applied to one line (part_004 line 484). -/
def matchImportLinePs (line : List Char) : Option String :=
  match dropLit "import".data (line.dropWhile isSpaceChar) with
  | none => none
  | some r =>
    match skipSpaces1 r with
    | none => none
    | some r2 =>
      let cap := r2.takeWhile (fun c => !isSpaceChar c && c != ';')
      if cap.isEmpty then none else some (String.mk cap)

/-- python `fq.split(".")[-1]`, the import short name. -/
def shortNameOf (fq : String) : String :=
  String.mk ((splitOnChar '.' fq.data).getLastD fq.data)

/-- Dictionary insertion with overwrite (python dict / PowerShell
hashtable assignment). -/
def dictInsert (d : List (String × String)) (k v : String) : List (String × String) :=
  (d.filter (fun p => p.1 != k)) ++ [(k, v)]

/-- The import table of one file: the short name of every import line bound to
its fully-qualified form, later lines overwriting earlier ones. -/
def importTable (matchImp : List Char → Option String) (ls : List (List Char)) :
    List (String × String) :=
  ls.foldl
    (fun d line =>
      match matchImp line with
      | some fq => dictInsert d (shortNameOf fq) fq
      | none => d)
    []

/-- `\badd\(\s*([A-Za-z0-9_\.]+)\s*\(` at one position (bash python
`re_add_kotlin`, line 275; part_004 line 529 `$matchesKotlin`): a direct
constructor-call registration site.  Returns the capture, the last consumed
character and the rest of the text. -/
def matchAddKotlinAt (l : List Char) : Option (String × Char × List Char) :=
  match dropLit "add(".data l with
  | none => none
  | some r1 =>
    let r2 := skipSpaces r1
    let (cap, r3) := takeDotWordRun r2
    if cap.isEmpty then none
    else
      match expectChar '(' (skipSpaces r3) with
      | none => none
      | some r5 => some (String.mk cap, '(', r5)

/-- `\b(?:packages\.)?add\(\s*new\s+([A-Za-z0-9_\.]+)` at one position
(bash python `re_add_java`, line 276).  `(?:packages\.)?` adds no match
position beyond `\badd\(` because `.` is itself a non-word character. -/
def matchAddJavaNewAt (l : List Char) : Option (String × Char × List Char) :=
  match dropLit "add(".data l with
  | none => none
  | some r1 =>
    match dropLit "new".data (skipSpaces r1) with
    | none => none
    | some r3 =>
      match skipSpaces1 r3 with
      | none => none
      | some r4 =>
        let (cap, r5) := takeDotWordRun r4
        if cap.isEmpty then none
        else some (String.mk cap, cap.getLastD 'x', r5)

/-- `\b(?:packages\.)?add\(\s*new\s+([A-Za-z0-9_\.]+)\s*\(` at one position
(part_004 line 546 `$matchesJava`). -/
def matchAddJavaNewCallAt (l : List Char) : Option (String × Char × List Char) :=
  match dropLit "add(".data l with
  | none => none
  | some r1 =>
    match dropLit "new".data (skipSpaces r1) with
    | none => none
    | some r3 =>
      match skipSpaces1 r3 with
      | none => none
      | some r4 =>
        let (cap, r5) := takeDotWordRun r4
        if cap.isEmpty then none
        else
          match expectChar '(' (skipSpaces r5) with
          | none => none
          | some r6 => some (String.mk cap, '(', r6)

/-- `\badd\(\s*([A-Za-z0-9_]+)\s*\)` at one position (part_004 line 536
`$matchesKotlinVar`): a registration site referencing a bare variable. -/
def matchAddVarKotlinAt (l : List Char) : Option (String × Char × List Char) :=
  match dropLit "add(".data l with
  | none => none
  | some r1 =>
    let (cap, r3) := takeWordRun (skipSpaces r1)
    if cap.isEmpty then none
    else
      match expectChar ')' (skipSpaces r3) with
      | none => none
      | some r5 => some (String.mk cap, ')', r5)

/-- `\b(?:packages\.)?add\(\s*(?!new\b)([A-Za-z0-9_]+)\s*\)` at one
position (part_004 line 553 `$matchesJavaVar`); the negative lookahead
rejects exactly the capture `new`. -/
def matchAddVarJavaAt (l : List Char) : Option (String × Char × List Char) :=
  match dropLit "add(".data l with
  | none => none
  | some r1 =>
    let (cap, r3) := takeWordRun (skipSpaces r1)
    if cap.isEmpty then none
    else if String.mk cap == "new" then none
    else
      match expectChar ')' (skipSpaces r3) with
      | none => none
      | some r5 => some (String.mk cap, ')', r5)

/-- `\b(?:val|var)\s+([A-Za-z0-9_]+)\s*=\s*([A-Za-z0-9_\.]+)\s*\(` at one
position (part_004 line 501 `$matchesKotlinAssign`): a Kotlin local-alias
binding.  Returns the pair (variable name, class name). -/
def matchValVarAssignAt (l : List Char) : Option ((String × String) × Char × List Char) :=
  let afterKw :=
    match dropLit "val".data l with
    | some r => some r
    | none => dropLit "var".data l
  match afterKw with
  | none => none
  | some r1 =>
    match skipSpaces1 r1 with
    | none => none
    | some r2 =>
      let (v, r3) := takeWordRun r2
      if v.isEmpty then none
      else
        match expectChar '=' (skipSpaces r3) with
        | none => none
        | some r4 =>
          let (cls, r5) := takeDotWordRun (skipSpaces r4)
          if cls.isEmpty then none
          else
            match expectChar '(' (skipSpaces r5) with
            | none => none
            | some r6 => some ((String.mk v, String.mk cls), '(', r6)

/-- `\b([A-Za-z0-9_\.]+)\s+([A-Za-z0-9_]+)\s*=\s*new\s+([A-Za-z0-9_\.]+)\s*\(`
at one position (part_004 line 510 `$matchesJavaTypedAssign`): a typed Java
declaration with constructor initialiser. -/
def matchTypedAssignAt (l : List Char) : Option ((String × String) × Char × List Char) :=
  let (ty, r1) := takeDotWordRun l
  if ty.isEmpty then none
  else
    match skipSpaces1 r1 with
    | none => none
    | some r2 =>
      let (v, r3) := takeWordRun r2
      if v.isEmpty then none
      else
        match expectChar '=' (skipSpaces r3) with
        | none => none
        | some r4 =>
          match dropLit "new".data (skipSpaces r4) with
          | none => none
          | some r5 =>
            match skipSpaces1 r5 with
            | none => none
            | some r6 =>
              let (cls, r7) := takeDotWordRun r6
              if cls.isEmpty then none
              else
                match expectChar '(' (skipSpaces r7) with
                | none => none
                | some r8 => some ((String.mk v, String.mk cls), '(', r8)

/-- `\b([A-Za-z0-9_]+)\s*=\s*new\s+([A-Za-z0-9_\.]+)\s*\(` at one position
(part_004 line 519 `$matchesJavaAssign`): a plain Java assignment with
constructor initialiser. -/
def matchPlainAssignNewAt (l : List Char) : Option ((String × String) × Char × List Char) :=
  let (v, r1) := takeWordRun l
  if v.isEmpty then none
  else
    match expectChar '=' (skipSpaces r1) with
    | none => none
    | some r2 =>
      match dropLit "new".data (skipSpaces r2) with
      | none => none
      | some r3 =>
        match skipSpaces1 r3 with
        | none => none
        | some r4 =>
          let (cls, r5) := takeDotWordRun r4
          if cls.isEmpty then none
          else
            match expectChar '(' (skipSpaces r5) with
            | none => none
            | some r6 => some ((String.mk v, String.mk cls), '(', r6)

/-- `\b` before a match that starts with a word character: the previous
character (if any) must not be a word character. -/
def prevNonWord : Option Char → Bool
  | none => true
  | some c => !isWordChar c

/-- Fuel-driven driver reproducing `findall` / `Regex.Matches`: try the
matcher at every position whose left context satisfies `\b`, collect the
captures left to right, and continue after the end of each match
(non-overlapping).  The fuel (initialised to the text length plus one)
bounds the recursion; every step consumes at least one character, so it is
never exhausted. -/
def scanAllAux {α : Type} (m : List Char → Option (α × Char × List Char)) :
    Nat → Option Char → List Char → List α
  | 0, _, _ => []
  | _ + 1, _, [] => []
  | fuel + 1, prev, c :: rest =>
    if prevNonWord prev then
      match m (c :: rest) with
      | some (a, lastc, rest2) => a :: scanAllAux m fuel (some lastc) rest2
      | none => scanAllAux m fuel (some c) rest
    else scanAllAux m fuel (some c) rest

/-- All captures of one matcher over a text. -/
def scanAll {α : Type} (m : List Char → Option (α × Char × List Char))
    (l : List Char) : List α :=
  scanAllAux m (l.length + 1) none l

/-- python `fqcn.endswith("Package")` (case-sensitive, bash python
line 300). -/
def endsWithPackage (s : String) : Bool := endsWithL s.data "Package".data

/-- PowerShell `$fqcn -match 'Package$'` (case-insensitive by default,
part_004 lines 533-558). -/
def endsWithPackageCI (s : String) : Bool :=
  endsWithL (lowerStr s).data "package".data

/-- The per-file body of the bash scanner (the python script embedded at
buildPlugin.sh lines 268-302): strip block comments then line comments,
take the first package declaration, build the import table, collect the
two call-site patterns, resolve every captured name and keep those ending
in "Package".  There is no local-alias table in this implementation. -/
def scanApplicationFileSh (text : String) : List String :=
  let t := stripLineCommentsSh (stripBlockComments text.data)
  let ls := splitLines t
  let pkg := (ls.filterMap matchPackageLine).headD ""
  let imports := importTable matchImportLine ls
  let names := scanAll matchAddKotlinAt t ++ scanAll matchAddJavaNewAt t
  (names.map (resolve_fqcn imports pkg)).filter endsWithPackage

/-- `find_manual_react_packages_from_application` (buildPlugin.sh lines
250-303): union of the per-file results as a python set, printed sorted. -/
def find_manual_react_packages_from_application (files : List String) : List String :=
  sortUniq (files.flatMap scanApplicationFileSh)

/-- The per-file body of `Find-ManualReactPackagesFromApplication`
(part_004 lines 471-561): strip whole-line comments then block comments,
take the first package declaration, build the import table, build the
local-alias table `$varToClass` from the three assignment patterns
(values resolved at assignment time, later matches overwriting earlier
ones), then collect the four call-site patterns in source order; variable
references are looked up in the alias table, and an unresolvable variable
contributes nothing. -/
def scanApplicationFilePs (text : String) : List String :=
  let t := stripBlockComments (stripLineCommentsPs text.data)
  let ls := splitLines t
  let pkg := (ls.filterMap matchPackageLinePs).headD ""
  let imports := importTable matchImportLinePs ls
  let rsv := resolve_fqcn imports pkg
  let assigns :=
    scanAll matchValVarAssignAt t ++ scanAll matchTypedAssignAt t ++
      scanAll matchPlainAssignNewAt t
  let varToClass :=
    assigns.foldl (fun d p => dictInsert d p.1 (rsv p.2)) ([] : List (String × String))
  let direct1 := ((scanAll matchAddKotlinAt t).map rsv).filter endsWithPackageCI
  let var1 :=
    ((scanAll matchAddVarKotlinAt t).filterMap
      (fun v => varToClass.lookup v)).filter endsWithPackageCI
  let direct2 := ((scanAll matchAddJavaNewCallAt t).map rsv).filter endsWithPackageCI
  let var2 :=
    ((scanAll matchAddVarJavaAt t).filterMap
      (fun v => varToClass.lookup v)).filter endsWithPackageCI
  direct1 ++ var1 ++ direct2 ++ var2

/-- `Find-ManualReactPackagesFromApplication` (part_004 lines 455-569):
per-file results appended across files, then `Sort-Object -Unique`. -/
def Find_ManualReactPackagesFromApplication (files : List String) : List String :=
  sortUniq (files.flatMap scanApplicationFilePs)

/-! ## Build decision and pipeline orchestrator (buildPlugin.sh `main`,
lines 672-736; part_004 `Main`, lines 1136-1287) -/

/-- The build-decision check of `main` (buildPlugin.sh lines 702-707):
`should_build_native` becomes 0 (= build required) iff the project scan
output has a non-blank line (`awk 'NF'`) or the third-party module scan
output has one.  `true` here means `NATIVE_BUILD_REQUIRED`, `false` means
`NO_NATIVE_WORK`. -/
def decide_native_build (projectReactPkgs thirdPartyNativeMods : List String) : Bool :=
  projectReactPkgs.any nonblankB || thirdPartyNativeMods.any nonblankB

/-- The environment of one pipeline run: everything `main` reads from the
file system or from external tools.  The scan results are the line lists
produced by the scanner functions; the booleans are the outcomes of the
external-tool invocations and file-system tests that `main` reacts to. -/
structure Env where
  packageInfo : PackageInfo
  rootCfg : Option PluginConfig
  priorStagingCfg : Option PluginConfig
  freshPluginId : String
  iconFileFound : Bool
  projectReactPkgs : List String
  thirdPartyNativeMods : List String
  autolinkPkgs : List String
  apkBuildOk : Bool
  apkFound : Bool
  stagingDirExistsAtZip : Bool
  stagingDirNonEmptyAtZip : Bool
  zipCmdAvailable : Bool
  zipExitOk : Bool
  deriving Repr

/-- Observable outcome of one pipeline run. -/
structure RunResult where
  rootCfg : PluginConfig
  stagingCfg : PluginConfig
  nativeBuildInvoked : Bool
  apkCopied : Bool
  mergeRan : Bool
  archiveProduced : Bool
  snplgProduced : Bool
  exitCode : Nat
  logs : List String
  deriving Repr

/-- `main` (buildPlugin.sh lines 672-736), from the point where package
info and the staging directory exist: bootstrap the root manifest (lines
683-690), seed the staging manifest by unconditional copy (line 693),
handle the icon (line 694), decide the native build (lines 696-707); when
required, merge the package lists into `reactPackages` (lines 710-715),
run gradle and on success stage the APK and write `nativeCodePackage`
(lines 717-721, a gradle failure or a missing APK only logs and skips);
finally compress the staging directory and rename the archive (lines
726-731) — a compression failure is only an untaken `if` branch, the
script still prints "Build process completed" and `main` returns 0.
`logs` records the `write_color_output` messages of `main` relevant to the
claims. -/
def runMain (e : Env) : RunResult :=
  let root := bootstrap_root_config e.rootCfg e.freshPluginId e.packageInfo
  let staging1 := copy_icon_and_update_path root e.iconFileFound
    (seed_staging root e.priorStagingCfg)
  let zipOk := new_zip_package e.stagingDirExistsAtZip e.stagingDirNonEmptyAtZip
    e.zipCmdAvailable e.zipExitOk
  if decide_native_build e.projectReactPkgs e.thirdPartyNativeMods then
    let s2 := (merge_packages (some root) (some staging1)
      (e.projectReactPkgs ++ e.autolinkPkgs)).getD staging1
    if e.apkBuildOk then
      let s3 := (copy_apk_and_update_config e.apkFound s2).getD s2
      { rootCfg := root
        stagingCfg := s3
        nativeBuildInvoked := true
        apkCopied := (copy_apk_and_update_config e.apkFound s2).isSome
        mergeRan := true
        archiveProduced := zipOk
        snplgProduced := zipOk
        exitCode := 0
        logs := ["Build process completed"] }
    else
      { rootCfg := root
        stagingCfg := s2
        nativeBuildInvoked := true
        apkCopied := false
        mergeRan := true
        archiveProduced := zipOk
        snplgProduced := zipOk
        exitCode := 0
        logs := ["APK build failed", "Build process completed"] }
  else
    { rootCfg := root
      stagingCfg := staging1
      nativeBuildInvoked := false
      apkCopied := false
      mergeRan := false
      archiveProduced := zipOk
      snplgProduced := zipOk
      exitCode := 0
      logs := ["Build conditions not met; skipping native build and reactPackages update",
               "Build process completed"] }

/-! ## Concrete fixtures used by witnesses and counterexamples -/

/-- A sample package.json content. -/
def infoFix : PackageInfo :=
  { name := "supernote-sudoku", description := "Sudoku plugin", version := "1.0.0" }

/-- A sample root manifest as generated on a first run. -/
def cfgRootFix : PluginConfig := new_plugin_config "a1b2c3d4e5f6g7h8" infoFix

/-- A stale staging manifest left over from an earlier run (it carries a
`reactPackages` entry the root manifest does not have). -/
def cfgStaleFix : PluginConfig :=
  { cfgRootFix with reactPackages := some ["com.old.StalePackage"] }

/-- A run with no registration call sites and no native-bearing third-party
modules (and a stale staging manifest present). -/
def envNoWork : Env :=
  { packageInfo := infoFix
    rootCfg := some cfgRootFix
    priorStagingCfg := some cfgStaleFix
    freshPluginId := "zzzz9999zzzz9999"
    iconFileFound := false
    projectReactPkgs := []
    thirdPartyNativeMods := []
    autolinkPkgs := []
    apkBuildOk := true
    apkFound := true
    stagingDirExistsAtZip := true
    stagingDirNonEmptyAtZip := true
    zipCmdAvailable := true
    zipExitOk := true }

/-- A run where only a third-party native-bearing module triggers the
native stage while no PackageReference is discovered at all. -/
def envModsOnly : Env :=
  { envNoWork with thirdPartyNativeMods := ["react-native-svg"], priorStagingCfg := none }

/-- A run where the native stage is required and the gradle invocation
fails. -/
def envNativeFail : Env :=
  { envNoWork with thirdPartyNativeMods := ["react-native-svg"], apkBuildOk := false }

/-- A run whose staging directory is empty at compression time. -/
def envEmptyStaging : Env := { envNoWork with stagingDirNonEmptyAtZip := false }

/-- A Kotlin Application source registering a package through a
local-variable alias. -/
def aliasCallSiteFile : String :=
  "package com.example\n\nval bar = FooPackage()\nadd(bar)\n"

/-- The same registration written as a direct constructor call. -/
def directCallSiteFile : String :=
  "package com.example\n\nadd(FooPackage())\n"

/-! ## Supporting lemmas -/

theorem filter_bne_empty_sortUniq {l : List String}
    (h : ∀ s ∈ l, nonblankB s = true) :
    (sortUniq l).filter (fun s => s != "") = sortUniq l := by
  apply List.filter_eq_self.mpr
  intro s hs
  exact bne_iff_ne.mpr (ne_empty_of_nonblank (h s (mem_sortUniq.mp hs)))

theorem nonblank_of_mem_filter {l : List String} {s : String}
    (hs : s ∈ l.filter nonblankB) : nonblankB s = true :=
  (List.mem_filter.mp hs).2

theorem merge_getD_eq (r c : PluginConfig) (d : List String) :
    (merge_packages (some r) (some c) d).getD c
      = { c with reactPackages := some (sortUniq (d.filter nonblankB)) } := by
  unfold merge_packages update_plugin_config_packages
  have hf : (sortUniq (d.filter nonblankB)).filter (fun s => s != "")
      = sortUniq (d.filter nonblankB) :=
    filter_bne_empty_sortUniq (fun s hs => nonblank_of_mem_filter hs)
  simp [hf]

theorem merge_getD_native (r c : PluginConfig) (d : List String) :
    ((merge_packages (some r) (some c) d).getD c).nativeCodePackage
      = c.nativeCodePackage := by
  rw [merge_getD_eq]

theorem copy_icon_preserves_native (r : PluginConfig) (b : Bool) (c : PluginConfig) :
    (copy_icon_and_update_path r b c).nativeCodePackage = c.nativeCodePackage := by
  unfold copy_icon_and_update_path
  split <;> rfl

theorem copy_icon_preserves_react (r : PluginConfig) (b : Bool) (c : PluginConfig) :
    (copy_icon_and_update_path r b c).reactPackages = c.reactPackages := by
  unfold copy_icon_and_update_path
  split <;> rfl

theorem copy_apk_getD_preserves_react (b : Bool) (c : PluginConfig) :
    ((copy_apk_and_update_config b c).getD c).reactPackages = c.reactPackages := by
  cases b <;> rfl

theorem getD_mem_or_default (l : List Char) (d : Char) (n : Nat) :
    l.getD n d ∈ l ∨ l.getD n d = d := by
  induction l generalizing n with
  | nil => right; cases n <;> rfl
  | cons a t ih =>
    cases n with
    | zero => left; simp [List.getD_cons_zero]
    | succ n =>
      rcases ih n with h | h
      · left; rw [List.getD_cons_succ]; exact List.mem_cons_of_mem _ h
      · right; rw [List.getD_cons_succ]; exact h

theorem runMain_packaging_fields (e : Env) :
    (runMain e).exitCode = 0
    ∧ (runMain e).archiveProduced
        = new_zip_package e.stagingDirExistsAtZip e.stagingDirNonEmptyAtZip
            e.zipCmdAvailable e.zipExitOk
    ∧ (runMain e).snplgProduced
        = new_zip_package e.stagingDirExistsAtZip e.stagingDirNonEmptyAtZip
            e.zipCmdAvailable e.zipExitOk := by
  cases hb : decide_native_build e.projectReactPkgs e.thirdPartyNativeMods
  · simp [runMain, hb]
  · cases ha : e.apkBuildOk <;> simp [runMain, hb, ha]

/-! ## Claim theorems -/

/-- C5: the variable-alias scenario of the spec (`val bar = FooPackage()` then
`add(bar)`) is resolved by the PowerShell scanner to the same
fully-qualified reference as the direct form `add(FooPackage())`, but the
bash scanner — which has no local-alias table — yields no reference at all
for the alias form while yielding `com.example.FooPackage` for the direct
form.  This evaluates both scanners at the failing input. -/
theorem aliasCallSite_bash_scanner_divergence :
    find_manual_react_packages_from_application [aliasCallSiteFile] = []
    ∧ find_manual_react_packages_from_application [directCallSiteFile]
        = ["com.example.FooPackage"]
    ∧ Find_ManualReactPackagesFromApplication [aliasCallSiteFile]
        = ["com.example.FooPackage"]
    ∧ Find_ManualReactPackagesFromApplication [directCallSiteFile]
        = ["com.example.FooPackage"] :=
  ⟨by decide, by decide, by decide, by decide⟩

/-- C6: `bootstrapRoot` is idempotent: with the root manifest present the
bootstrap step returns it untouched, so a second invocation never
regenerates or overwrites `pluginID`; the generated token has the fixed
length 16 over the fixed 36-character alphabet. -/
theorem bootstrapRoot_never_regenerates_pluginID :
    (∀ (cfg : PluginConfig) (freshId : String) (info : PackageInfo),
        bootstrap_root_config (some cfg) freshId info = cfg
        ∧ (bootstrap_root_config (some cfg) freshId info).pluginID = cfg.pluginID)
    ∧ (∀ (id1 id2 : String) (info1 info2 : PackageInfo),
        bootstrap_root_config (some (bootstrap_root_config none id1 info1)) id2 info2
          = bootstrap_root_config none id1 info1
        ∧ (bootstrap_root_config (some (bootstrap_root_config none id1 info1))
            id2 info2).pluginID = id1)
    ∧ (∀ rand : Nat → Fin 36,
        (New_RandomString rand 16).length = 16
        ∧ ∀ c ∈ (New_RandomString rand 16).data, c ∈ randomChars) := by
  refine ⟨fun cfg freshId info => ⟨rfl, rfl⟩,
          fun id1 id2 info1 info2 => ⟨rfl, rfl⟩,
          fun rand => ⟨rfl, ?_⟩⟩
  intro c hc
  have hd : (New_RandomString rand 16).data
      = (List.range 16).map (fun i => randomChars.getD (rand i).val 'a') := rfl
  rw [hd] at hc
  obtain ⟨i, _, rfl⟩ := List.mem_map.mp hc
  rcases getD_mem_or_default randomChars 'a' (rand i).val with h | h
  · exact h
  · rw [h]; decide

/-- C7: `mergePackages` overwrites `reactPackages` with the deduplicated,
sorted union of the discovered PackageReferences (same member set, no
duplicates, sorted), and applying it a second time with the same discovered
set changes nothing. -/
theorem mergePackages_overwrites_sorted_dedup_idempotent
    (rootCfg : Option PluginConfig) (cfg : PluginConfig) (discovered : List String)
    (hd : ∀ s ∈ discovered, nonblankB s = true) :
    merge_packages rootCfg (some cfg) discovered
        = some { cfg with reactPackages := some (sortUniq discovered) }
    ∧ (sortUniq discovered).Nodup
    ∧ (sortUniq discovered).Pairwise strRel
    ∧ (∀ s, s ∈ sortUniq discovered ↔ s ∈ discovered)
    ∧ merge_packages rootCfg (merge_packages rootCfg (some cfg) discovered) discovered
        = merge_packages rootCfg (some cfg) discovered := by
  have hfilter : discovered.filter nonblankB = discovered := List.filter_eq_self.mpr hd
  have hgen : ∀ c : PluginConfig,
      merge_packages rootCfg (some c) discovered
        = some { c with reactPackages := some (sortUniq discovered) } := by
    intro c
    unfold merge_packages update_plugin_config_packages
    rw [hfilter]
    simp [filter_bne_empty_sortUniq hd]
  refine ⟨hgen cfg, sortUniq_nodup _, sortUniq_sorted _, fun s => mem_sortUniq, ?_⟩
  rw [hgen cfg, hgen { cfg with reactPackages := some (sortUniq discovered) }]

/-- A concrete discovered set with a duplicate and out-of-order entries. -/
def pkgsFix : List String := ["com.b.BPackage", "com.a.APackage", "com.b.BPackage"]

/-- Witness for C7 at a concrete discovered set with a duplicate and
out-of-order entries. -/
theorem mergePackages_overwrites_witness :
    (∀ s ∈ pkgsFix, nonblankB s = true)
    ∧ (merge_packages none (some cfgRootFix) pkgsFix
        = some { cfgRootFix with reactPackages := some (sortUniq pkgsFix) }
      ∧ (sortUniq pkgsFix).Nodup
      ∧ (sortUniq pkgsFix).Pairwise strRel
      ∧ (∀ s, s ∈ sortUniq pkgsFix ↔ s ∈ pkgsFix)
      ∧ merge_packages none (merge_packages none (some cfgRootFix) pkgsFix) pkgsFix
          = merge_packages none (some cfgRootFix) pkgsFix) :=
  ⟨by decide,
   mergePackages_overwrites_sorted_dedup_idempotent none cfgRootFix pkgsFix (by decide)⟩

/-- C8: the symbol resolver maps a bare (undotted) name appearing in the
file import table to exactly the imported fully-qualified form, and the
imported binding takes precedence over package-prefix concatenation. -/
theorem resolver_import_table_precedence (imports : List (String × String))
    (pkg name fq : String) (h1 : containsDot name = false)
    (h2 : imports.lookup name = some fq) :
    resolve_fqcn imports pkg name = fq := by
  simp [resolve_fqcn, h1, h2]

/-- Witness for C8: the import binding wins although a declared package is
present. -/
theorem resolver_import_table_precedence_witness :
    containsDot "FooPackage" = false
    ∧ [("FooPackage", "com.lib.FooPackage")].lookup "FooPackage"
        = some "com.lib.FooPackage"
    ∧ resolve_fqcn [("FooPackage", "com.lib.FooPackage")] "com.app" "FooPackage"
        = "com.lib.FooPackage" :=
  ⟨by decide, by decide,
   resolver_import_table_precedence [("FooPackage", "com.lib.FooPackage")]
     "com.app" "FooPackage" "com.lib.FooPackage" (by decide) (by decide)⟩

/-- C9: a module whose name matches the deny-list (exact names and
scope-prefix wildcards, compared case-insensitively) is classified ignored
for every possible directory content, never native-bearing. -/
theorem denyListed_module_never_nativeBearing (moduleName : String)
    (h : is_ignored_module_name moduleName = true) :
    ∀ d1 d2 d3 : Bool, classify_module moduleName d1 d2 d3 = ModuleClass.ignored := by
  intro d1 d2 d3
  simp [classify_module, h]

/-- Witness for C9: a mixed-case scoped name matching the wildcard pattern,
with all three candidate directories full of sources. -/
theorem denyListed_module_witness :
    is_ignored_module_name "@React-Navigation/native" = true
    ∧ classify_module "@React-Navigation/native" true true true = ModuleClass.ignored :=
  ⟨by decide, denyListed_module_never_nativeBearing "@React-Navigation/native"
    (by decide) true true true⟩

/-- C10 counterexample: a staging manifest already exists (a stale one,
different from the root manifest) and the seeding step does not leave it
unchanged — it is overwritten by the root copy. -/
theorem seedStaging_overwrite_counterexample :
    seed_staging cfgRootFix (some cfgStaleFix) ≠ cfgStaleFix := by decide

/-- C10 amended: the seeding step (`cp root gen` / `Copy-Item -Force`)
unconditionally copies the root manifest over the staging location; the
run result never depends on the pre-existing staging copy. -/
theorem seedStaging_unconditional_copy :
    (∀ (rootCfg : PluginConfig) (prior : Option PluginConfig),
        seed_staging rootCfg prior = rootCfg)
    ∧ (∀ e : Env, runMain e = runMain { e with priorStagingCfg := none }) :=
  ⟨fun _ _ => rfl, fun _ => rfl⟩

/-- C1: the build decision is `NATIVE_BUILD_REQUIRED` iff the project scan
yields at least one PackageReference or at least one third-party module is
native-bearing; with both scan results empty the run stays in
`NO_NATIVE_WORK` and skips the native invocation, the artifact copy, the
package merge, and the `nativeCodePackage` manifest write (the staging
field keeps the seeded root value). -/
theorem buildDecision_iff_and_noNativeWork_skips (e : Env)
    (hp : ∀ s ∈ e.projectReactPkgs, nonblankB s = true)
    (hm : ∀ s ∈ e.thirdPartyNativeMods, nonblankB s = true) :
    (decide_native_build e.projectReactPkgs e.thirdPartyNativeMods = true
      ↔ (e.projectReactPkgs ≠ [] ∨ e.thirdPartyNativeMods ≠ []))
    ∧ (e.projectReactPkgs = [] → e.thirdPartyNativeMods = [] →
        (runMain e).nativeBuildInvoked = false
        ∧ (runMain e).apkCopied = false
        ∧ (runMain e).mergeRan = false
        ∧ (runMain e).stagingCfg.nativeCodePackage
            = (runMain e).rootCfg.nativeCodePackage) := by
  constructor
  · constructor
    · intro h
      simp only [decide_native_build, Bool.or_eq_true, List.any_eq_true] at h
      rcases h with ⟨x, hx, _⟩ | ⟨x, hx, _⟩
      · exact Or.inl (List.ne_nil_of_mem hx)
      · exact Or.inr (List.ne_nil_of_mem hx)
    · intro h
      simp only [decide_native_build, Bool.or_eq_true, List.any_eq_true]
      rcases h with h | h
      · obtain ⟨x, hx⟩ := List.exists_mem_of_ne_nil _ h
        exact Or.inl ⟨x, hx, hp x hx⟩
      · obtain ⟨x, hx⟩ := List.exists_mem_of_ne_nil _ h
        exact Or.inr ⟨x, hx, hm x hx⟩
  · intro hp0 hm0
    have hdec : decide_native_build e.projectReactPkgs e.thirdPartyNativeMods = false := by
      simp [decide_native_build, hp0, hm0]
    refine ⟨by simp [runMain, hdec], by simp [runMain, hdec], by simp [runMain, hdec], ?_⟩
    simp only [runMain, hdec, Bool.false_eq_true, if_false]
    rw [copy_icon_preserves_native]
    rfl

/-- Witness for C1 at the concrete no-native-work run. -/
theorem buildDecision_iff_witness :
    (decide_native_build envNoWork.projectReactPkgs envNoWork.thirdPartyNativeMods = true
      ↔ (envNoWork.projectReactPkgs ≠ [] ∨ envNoWork.thirdPartyNativeMods ≠ []))
    ∧ (envNoWork.projectReactPkgs = [] → envNoWork.thirdPartyNativeMods = [] →
        (runMain envNoWork).nativeBuildInvoked = false
        ∧ (runMain envNoWork).apkCopied = false
        ∧ (runMain envNoWork).mergeRan = false
        ∧ (runMain envNoWork).stagingCfg.nativeCodePackage
            = (runMain envNoWork).rootCfg.nativeCodePackage) :=
  buildDecision_iff_and_noNativeWork_skips envNoWork
    (by intro s hs; simp [envNoWork] at hs)
    (by intro s hs; simp [envNoWork] at hs)

/-- C2 counterexample: a complete pipeline run (the archive is produced)
in the no-native-work state ends with NO `reactPackages` field in the
staging manifest at all — the merge step is skipped entirely, so the field
is neither present nor set to the empty list. -/
theorem reactPackages_absent_after_noNativeWork_run :
    (runMain envNoWork).archiveProduced = true
    ∧ (runMain envNoWork).stagingCfg.reactPackages = none := ⟨by decide, by decide⟩

/-- C2 amended: on every run that reaches the merge step (i.e. whose build
decision is `NATIVE_BUILD_REQUIRED`), the staging manifest ends with
`reactPackages` present as a list — the deduplicated sorted union of the
discovered references, which is the empty list when the union is empty. -/
theorem reactPackages_present_when_merge_runs (e : Env)
    (h : decide_native_build e.projectReactPkgs e.thirdPartyNativeMods = true) :
    (runMain e).stagingCfg.reactPackages
      = some (sortUniq ((e.projectReactPkgs ++ e.autolinkPkgs).filter nonblankB)) := by
  cases ha : e.apkBuildOk
  · simp only [runMain, h, if_true, ha, Bool.false_eq_true, if_false]
    rw [merge_getD_eq]
  · simp only [runMain, h, if_true, ha, if_true]
    rw [copy_apk_getD_preserves_react, merge_getD_eq]

/-- Witness for C2 at a run triggered only by a native-bearing third-party
module, where the union of discovered PackageReferences is empty: the
field is written as the empty list. -/
theorem reactPackages_present_witness :
    decide_native_build envModsOnly.projectReactPkgs envModsOnly.thirdPartyNativeMods = true
    ∧ (runMain envModsOnly).stagingCfg.reactPackages
        = some (sortUniq ((envModsOnly.projectReactPkgs
            ++ envModsOnly.autolinkPkgs).filter nonblankB))
    ∧ (runMain envModsOnly).stagingCfg.reactPackages = some [] :=
  ⟨by decide, reactPackages_present_when_merge_runs envModsOnly (by decide), by decide⟩

/-- C3 counterexample: with the staging directory empty at compression time
no archive and no distributable are produced, but the pipeline still
finishes with exit code 0 — the compression failure is only the untaken
branch of `if new_zip_package ...` (bash) / an early `return` (PowerShell),
not a non-zero exit. -/
theorem emptyStaging_zero_exit_counterexample :
    (runMain envEmptyStaging).archiveProduced = false
    ∧ (runMain envEmptyStaging).snplgProduced = false
    ∧ (runMain envEmptyStaging).exitCode = 0 := ⟨by decide, by decide, by decide⟩

/-- C3 amended: if the staging directory is missing or empty at compression
time, no archive and no distributable file are produced and the run is a
logged skip — the pipeline completes with exit code 0 (the failure is not
propagated as a non-zero exit). -/
theorem emptyStaging_no_archive_exit_zero (e : Env)
    (h : e.stagingDirExistsAtZip = false ∨ e.stagingDirNonEmptyAtZip = false) :
    (runMain e).archiveProduced = false
    ∧ (runMain e).snplgProduced = false
    ∧ (runMain e).exitCode = 0 := by
  obtain ⟨h0, h1, h2⟩ := runMain_packaging_fields e
  have hz : new_zip_package e.stagingDirExistsAtZip e.stagingDirNonEmptyAtZip
      e.zipCmdAvailable e.zipExitOk = false := by
    rcases h with h | h <;> simp [new_zip_package, h]
  exact ⟨h1.trans hz, h2.trans hz, h0⟩

/-- Witness for C3 at the concrete empty-staging run. -/
theorem emptyStaging_no_archive_witness :
    (envEmptyStaging.stagingDirExistsAtZip = false
      ∨ envEmptyStaging.stagingDirNonEmptyAtZip = false)
    ∧ ((runMain envEmptyStaging).archiveProduced = false
      ∧ (runMain envEmptyStaging).snplgProduced = false
      ∧ (runMain envEmptyStaging).exitCode = 0) :=
  ⟨Or.inr (by decide),
   emptyStaging_no_archive_exit_zero envEmptyStaging (Or.inr (by decide))⟩

/-- C4: when the native build is required but the toolchain invocation
fails, the run logs the failure, skips the artifact copy and the
`nativeCodePackage` write (the staging field keeps the seeded root value),
and still produces the archive and the distributable with exit code 0 —
the failure aborts only the native sub-stage. -/
theorem nativeFailure_skips_native_substage_only (e : Env)
    (hbuild : decide_native_build e.projectReactPkgs e.thirdPartyNativeMods = true)
    (hapk : e.apkBuildOk = false)
    (hzip : new_zip_package e.stagingDirExistsAtZip e.stagingDirNonEmptyAtZip
        e.zipCmdAvailable e.zipExitOk = true) :
    (runMain e).nativeBuildInvoked = true
    ∧ "APK build failed" ∈ (runMain e).logs
    ∧ (runMain e).apkCopied = false
    ∧ (runMain e).stagingCfg.nativeCodePackage = (runMain e).rootCfg.nativeCodePackage
    ∧ (runMain e).archiveProduced = true
    ∧ (runMain e).snplgProduced = true
    ∧ (runMain e).exitCode = 0 := by
  refine ⟨by simp [runMain, hbuild, hapk], ?_, by simp [runMain, hbuild, hapk],
          ?_, ?_, ?_, by simp [runMain, hbuild, hapk]⟩
  · simp only [runMain, hbuild, if_true, hapk, Bool.false_eq_true, if_false]
    exact List.mem_cons_self _ _
  · simp only [runMain, hbuild, if_true, hapk, Bool.false_eq_true, if_false]
    rw [merge_getD_native, copy_icon_preserves_native]
    rfl
  · simp only [runMain, hbuild, if_true, hapk, Bool.false_eq_true, if_false]
    exact hzip
  · simp only [runMain, hbuild, if_true, hapk, Bool.false_eq_true, if_false]
    exact hzip

/-- Witness for C4 at the concrete failed-native-build run. -/
theorem nativeFailure_witness :
    decide_native_build envNativeFail.projectReactPkgs envNativeFail.thirdPartyNativeMods
        = true
    ∧ envNativeFail.apkBuildOk = false
    ∧ new_zip_package envNativeFail.stagingDirExistsAtZip
        envNativeFail.stagingDirNonEmptyAtZip envNativeFail.zipCmdAvailable
        envNativeFail.zipExitOk = true
    ∧ ((runMain envNativeFail).nativeBuildInvoked = true
      ∧ "APK build failed" ∈ (runMain envNativeFail).logs
      ∧ (runMain envNativeFail).apkCopied = false
      ∧ (runMain envNativeFail).stagingCfg.nativeCodePackage
          = (runMain envNativeFail).rootCfg.nativeCodePackage
      ∧ (runMain envNativeFail).archiveProduced = true
      ∧ (runMain envNativeFail).snplgProduced = true
      ∧ (runMain envNativeFail).exitCode = 0) :=
  ⟨by decide, by decide, by decide,
   nativeFailure_skips_native_substage_only envNativeFail
     (by decide) (by decide) (by decide)⟩
